import Mathlib

/-!
Verification of the Unix core of the `ctrlc` crate
(`src/platform/unix/mod.rs`): the self-pipe bridge between an OS signal
handler and a blocking waiter.

The development shallowly embeds the four components of the source file:

* `block_ctrl_c_run` — the waiter loop of `block_ctrl_c`, driven by an
  explicit sequence of outcomes for the underlying one-byte `read`;
* `os_handler_model` — the signal handler `os_handler`;
* `pipe2_model` — the `pipe2` helper, covering both the atomic
  `pipe_with` variant and the `pipe` + `fcntl` fallback used on
  platforms without `pipe2(2)`;
* `init_os_handler` — the installer, threading an explicit OS state
  (signal disposition table, file-descriptor table, the `PIPE` static)
  and an oracle `Env` giving the outcome of every fallible syscall,
  and recording a trace of disposition/descriptor events.
-/

namespace Ctrlc

/-- Unix errno, as a plain natural number. -/
abbrev Errno := Nat

/-- `EINTR`: a blocking call was interrupted by a signal. -/
def EINTR : Errno := 4

/-- `EEXIST`: "already exists", used for handler conflicts. -/
def EEXIST : Errno := 17

/-! ## Blocking waiter (`block_ctrl_c`) -/

/-- Outcome of one `rustix::io::read` into the 1-byte buffer:
either `Ok(n)` with `n` bytes read, or `Err(e)`. -/
inductive ReadResult where
  | ok (n : Nat)
  | err (e : Errno)
deriving DecidableEq, Repr

/-- Result of `block_ctrl_c`, mirroring its `Result<(), CtrlcError>`:
success, the `UnexpectedEof` system error, or a propagated OS error. -/
inductive WaitOutcome where
  | success
  | eofError
  | sysError (e : Errno)
deriving DecidableEq, Repr

/-- The loop of `block_ctrl_c`, driven by the sequence of outcomes the
underlying reads will produce.  Returns the final outcome (`none` when
the outcome list is exhausted while the loop is still retrying, i.e.
the call is still blocked) together with the list of reads actually
performed.  Mirrors the source `match`:
`Ok(1) => break`, `Ok(_) => UnexpectedEof`, `Err(INTR) => {}` (retry),
`Err(e) => return Err(e)`. -/
def block_ctrl_c_run : List ReadResult → Option WaitOutcome × List ReadResult
  | [] => (none, [])
  | ReadResult.ok n :: _ =>
      if n = 1 then (some WaitOutcome.success, [ReadResult.ok n])
      else (some WaitOutcome.eofError, [ReadResult.ok n])
  | ReadResult.err e :: rest =>
      if e = EINTR then
        let r := block_ctrl_c_run rest
        (r.1, ReadResult.err e :: r.2)
      else (some (WaitOutcome.sysError e), [ReadResult.err e])

/-- Total number of bytes consumed by a list of performed reads
(an errored read consumes nothing). -/
def bytesConsumed (l : List ReadResult) : Nat :=
  (l.map fun r => match r with | ReadResult.ok n => n | ReadResult.err _ => 0).sum

theorem block_run_ok_one (rest : List ReadResult) :
    block_ctrl_c_run (ReadResult.ok 1 :: rest) =
      (some WaitOutcome.success, [ReadResult.ok 1]) := by
  simp [block_ctrl_c_run]

theorem block_run_ok_ne (n : Nat) (rest : List ReadResult) (h : n ≠ 1) :
    block_ctrl_c_run (ReadResult.ok n :: rest) =
      (some WaitOutcome.eofError, [ReadResult.ok n]) := by
  simp [block_ctrl_c_run, h]

theorem block_run_eintr (rest : List ReadResult) :
    block_ctrl_c_run (ReadResult.err EINTR :: rest) =
      ((block_ctrl_c_run rest).1, ReadResult.err EINTR :: (block_ctrl_c_run rest).2) := by
  simp [block_ctrl_c_run]

theorem block_run_err_ne (e : Errno) (rest : List ReadResult) (h : e ≠ EINTR) :
    block_ctrl_c_run (ReadResult.err e :: rest) =
      (some (WaitOutcome.sysError e), [ReadResult.err e]) := by
  simp [block_ctrl_c_run, h]

theorem block_run_performed_mem (outs : List ReadResult) :
    ∀ r ∈ (block_ctrl_c_run outs).2, r ∈ outs := by
  induction outs with
  | nil => intro r hr; simp [block_ctrl_c_run] at hr
  | cons head rest ih =>
    cases head with
    | ok n =>
      by_cases h1 : n = 1
      · subst h1; rw [block_run_ok_one]; intro r hr; simp at hr; simp [hr]
      · rw [block_run_ok_ne n rest h1]; intro r hr; simp at hr; simp [hr]
    | err e =>
      by_cases he : e = EINTR
      · subst he
        rw [block_run_eintr]
        intro r hr
        rcases List.mem_cons.mp hr with h | h
        · simp [h]
        · exact List.mem_cons_of_mem _ (ih r h)
      · rw [block_run_err_ne e rest he]; intro r hr; simp at hr; simp [hr]

theorem block_run_success_iff (outs : List ReadResult) :
    (block_ctrl_c_run outs).1 = some WaitOutcome.success ↔
      ∃ k, (block_ctrl_c_run outs).2 =
        List.replicate k (ReadResult.err EINTR) ++ [ReadResult.ok 1] := by
  induction outs with
  | nil =>
    simp only [block_ctrl_c_run]
    constructor
    · intro h; cases h
    · rintro ⟨k, hk⟩
      exact absurd hk.symm (List.append_ne_nil_of_right_ne_nil _ (by simp))
  | cons head rest ih =>
    cases head with
    | ok n =>
      by_cases h1 : n = 1
      · subst h1
        rw [block_run_ok_one]
        exact ⟨fun _ => ⟨0, by simp⟩, fun _ => rfl⟩
      · rw [block_run_ok_ne n rest h1]
        constructor
        · intro h; cases h
        · rintro ⟨k, hk⟩
          cases k with
          | zero =>
            simp only [List.replicate_zero, List.nil_append, List.cons.injEq,
              ReadResult.ok.injEq] at hk
            exact absurd hk.1 h1
          | succ k => simp [List.replicate_succ] at hk
    | err e =>
      by_cases he : e = EINTR
      · subst he
        rw [block_run_eintr]
        simp only
        rw [ih]
        constructor
        · rintro ⟨k, hk⟩
          exact ⟨k + 1, by simp [List.replicate_succ, hk]⟩
        · rintro ⟨k, hk⟩
          cases k with
          | zero => simp at hk
          | succ k =>
            simp only [List.replicate_succ, List.cons_append, List.cons.injEq] at hk
            exact ⟨k, hk.2⟩
      · rw [block_run_err_ne e rest he]
        constructor
        · intro h; cases h
        · rintro ⟨k, hk⟩
          cases k with
          | zero => simp at hk
          | succ k =>
            simp only [List.replicate_succ, List.cons_append, List.cons.injEq,
              ReadResult.err.injEq] at hk
            exact absurd hk.1 he

theorem block_run_eof_iff (outs : List ReadResult) :
    (block_ctrl_c_run outs).1 = some WaitOutcome.eofError ↔
      ∃ k n, n ≠ 1 ∧ (block_ctrl_c_run outs).2 =
        List.replicate k (ReadResult.err EINTR) ++ [ReadResult.ok n] := by
  induction outs with
  | nil =>
    simp only [block_ctrl_c_run]
    constructor
    · intro h; cases h
    · rintro ⟨k, n, _, hk⟩
      exact absurd hk.symm (List.append_ne_nil_of_right_ne_nil _ (by simp))
  | cons head rest ih =>
    cases head with
    | ok n =>
      by_cases h1 : n = 1
      · subst h1
        rw [block_run_ok_one]
        constructor
        · intro h; cases h
        · rintro ⟨k, m, hm, hk⟩
          cases k with
          | zero =>
            simp only [List.replicate_zero, List.nil_append, List.cons.injEq,
              ReadResult.ok.injEq] at hk
            exact absurd hk.1.symm hm
          | succ k => simp [List.replicate_succ] at hk
      · rw [block_run_ok_ne n rest h1]
        exact ⟨fun _ => ⟨0, n, h1, by simp⟩, fun _ => rfl⟩
    | err e =>
      by_cases he : e = EINTR
      · subst he
        rw [block_run_eintr]
        simp only
        rw [ih]
        constructor
        · rintro ⟨k, m, hm, hk⟩
          exact ⟨k + 1, m, hm, by simp [List.replicate_succ, hk]⟩
        · rintro ⟨k, m, hm, hk⟩
          cases k with
          | zero => simp at hk
          | succ k =>
            simp only [List.replicate_succ, List.cons_append, List.cons.injEq] at hk
            exact ⟨k, m, hm, hk.2⟩
      · rw [block_run_err_ne e rest he]
        constructor
        · intro h; cases h
        · rintro ⟨k, m, _, hk⟩
          cases k with
          | zero => simp at hk
          | succ k =>
            simp only [List.replicate_succ, List.cons_append, List.cons.injEq,
              ReadResult.err.injEq] at hk
            exact absurd hk.1 he

theorem block_run_sys_iff (outs : List ReadResult) (e : Errno) (he : e ≠ EINTR) :
    (block_ctrl_c_run outs).1 = some (WaitOutcome.sysError e) ↔
      ∃ k, (block_ctrl_c_run outs).2 =
        List.replicate k (ReadResult.err EINTR) ++ [ReadResult.err e] := by
  induction outs with
  | nil =>
    simp only [block_ctrl_c_run]
    constructor
    · intro h; cases h
    · rintro ⟨k, hk⟩
      exact absurd hk.symm (List.append_ne_nil_of_right_ne_nil _ (by simp))
  | cons head rest ih =>
    cases head with
    | ok n =>
      by_cases h1 : n = 1
      · subst h1
        rw [block_run_ok_one]
        constructor
        · intro h; cases h
        · rintro ⟨k, hk⟩
          cases k with
          | zero => simp at hk
          | succ k => simp [List.replicate_succ] at hk
      · rw [block_run_ok_ne n rest h1]
        constructor
        · intro h; cases h
        · rintro ⟨k, hk⟩
          cases k with
          | zero => simp at hk
          | succ k => simp [List.replicate_succ] at hk
    | err e' =>
      by_cases he' : e' = EINTR
      · subst he'
        rw [block_run_eintr]
        simp only
        rw [ih]
        constructor
        · rintro ⟨k, hk⟩
          exact ⟨k + 1, by simp [List.replicate_succ, hk]⟩
        · rintro ⟨k, hk⟩
          cases k with
          | zero =>
            simp only [List.replicate_zero, List.nil_append, List.cons.injEq,
              ReadResult.err.injEq] at hk
            exact absurd hk.1.symm he
          | succ k =>
            simp only [List.replicate_succ, List.cons_append, List.cons.injEq] at hk
            exact ⟨k, hk.2⟩
      · rw [block_run_err_ne e' rest he']
        constructor
        · intro h
          have h' : e' = e := by
            have := Option.some.inj h
            cases this
            rfl
          subst h'
          exact ⟨0, by simp⟩
        · rintro ⟨k, hk⟩
          cases k with
          | zero =>
            simp only [List.replicate_zero, List.nil_append, List.cons.injEq,
              ReadResult.err.injEq] at hk
            rw [hk.1]
          | succ k =>
            simp only [List.replicate_succ, List.cons_append, List.cons.injEq,
              ReadResult.err.injEq] at hk
            exact absurd hk.1 he'

theorem bytesConsumed_eintr_append (k : Nat) (r : ReadResult) :
    bytesConsumed (List.replicate k (ReadResult.err EINTR) ++ [r]) =
      bytesConsumed [r] := by
  simp [bytesConsumed]

/-- C1: `block_ctrl_c` succeeds exactly when a performed read returns one
byte, having consumed exactly that byte; a zero-byte read yields the
"unexpected end of stream" error; `EINTR` reads are retried (each
consuming nothing); any other error is propagated. -/
theorem c1_block_ctrl_c_spec (outs : List ReadResult)
    (hbuf : ∀ n, ReadResult.ok n ∈ outs → n ≤ 1) :
    ((block_ctrl_c_run outs).1 = some WaitOutcome.success ↔
      ∃ k, (block_ctrl_c_run outs).2 =
        List.replicate k (ReadResult.err EINTR) ++ [ReadResult.ok 1]) ∧
    ((block_ctrl_c_run outs).1 = some WaitOutcome.success →
      bytesConsumed (block_ctrl_c_run outs).2 = 1) ∧
    ((block_ctrl_c_run outs).1 = some WaitOutcome.eofError ↔
      ∃ k, (block_ctrl_c_run outs).2 =
        List.replicate k (ReadResult.err EINTR) ++ [ReadResult.ok 0]) ∧
    (∀ e, e ≠ EINTR →
      ((block_ctrl_c_run outs).1 = some (WaitOutcome.sysError e) ↔
        ∃ k, (block_ctrl_c_run outs).2 =
          List.replicate k (ReadResult.err EINTR) ++ [ReadResult.err e])) := by
  refine ⟨block_run_success_iff outs, ?_, ?_, fun e he => block_run_sys_iff outs e he⟩
  · intro h
    obtain ⟨k, hk⟩ := (block_run_success_iff outs).mp h
    rw [hk, bytesConsumed_eintr_append]
    simp [bytesConsumed]
  · rw [block_run_eof_iff outs]
    constructor
    · rintro ⟨k, n, hn, hk⟩
      have hmem : ReadResult.ok n ∈ outs :=
        block_run_performed_mem outs _ (by rw [hk]; simp)
      have hn0 : n = 0 := by
        have := hbuf n hmem
        omega
      exact ⟨k, by rw [hk, hn0]⟩
    · rintro ⟨k, hk⟩
      exact ⟨k, 0, by simp, hk⟩

/-- Witness for `c1_block_ctrl_c_spec` at the concrete read sequence
`[Err EINTR, Ok 1]`. -/
theorem c1_block_ctrl_c_spec_witness :
    ((block_ctrl_c_run [ReadResult.err EINTR, ReadResult.ok 1]).1 =
        some WaitOutcome.success ↔
      ∃ k, (block_ctrl_c_run [ReadResult.err EINTR, ReadResult.ok 1]).2 =
        List.replicate k (ReadResult.err EINTR) ++ [ReadResult.ok 1]) ∧
    ((block_ctrl_c_run [ReadResult.err EINTR, ReadResult.ok 1]).1 =
        some WaitOutcome.success →
      bytesConsumed (block_ctrl_c_run [ReadResult.err EINTR, ReadResult.ok 1]).2 = 1) ∧
    ((block_ctrl_c_run [ReadResult.err EINTR, ReadResult.ok 1]).1 =
        some WaitOutcome.eofError ↔
      ∃ k, (block_ctrl_c_run [ReadResult.err EINTR, ReadResult.ok 1]).2 =
        List.replicate k (ReadResult.err EINTR) ++ [ReadResult.ok 0]) ∧
    (∀ e, e ≠ EINTR →
      ((block_ctrl_c_run [ReadResult.err EINTR, ReadResult.ok 1]).1 =
          some (WaitOutcome.sysError e) ↔
        ∃ k, (block_ctrl_c_run [ReadResult.err EINTR, ReadResult.ok 1]).2 =
          List.replicate k (ReadResult.err EINTR) ++ [ReadResult.err e])) :=
  c1_block_ctrl_c_spec [ReadResult.err EINTR, ReadResult.ok 1]
    (by intro n hn; simp at hn; omega)

/-! ## Data model for the installer -/

/-- The target signals: `Signal::Int`, and (with the `termination`
feature) `Signal::Term` and `Signal::Hup`. -/
inductive Signal where
  | INT
  | TERM
  | HUP
deriving DecidableEq, Repr

/-- A signal handler slot as compared by the source
(`SigHandler`): default action, ignore, or a handler function,
identified by a code address. -/
inductive SigHandler where
  | SigDfl
  | SigIgn
  | Handler (f : Nat)
deriving DecidableEq, Repr

/-- A `sigaction` descriptor: the handler and the `SA_RESTART` flag. -/
structure SigAction where
  handler : SigHandler
  saRestart : Bool
deriving DecidableEq, Repr

/-- The code address of `os_handler`, the crate's own notifier. -/
def os_handler_fn : Nat := 0

/-- The action installed by `init_os_handler` on non-QNX platforms:
`SigAction::new(Handler(os_handler), SA_RESTART, SigSet::empty())`. -/
def new_action : SigAction := { handler := SigHandler.Handler os_handler_fn, saRestart := true }

/-- Per-descriptor flags tracked by the model: `FD_CLOEXEC` and
`O_NONBLOCK`. -/
structure FdState where
  cloexec : Bool
  nonblock : Bool
deriving DecidableEq, Repr

/-- The `OFlags` argument of `pipe2`. -/
structure OFlags where
  cloexec : Bool
  nonblock : Bool
deriving DecidableEq, Repr

/-- The flags `init_os_handler` passes to `pipe2`:
`OFlags::CLOEXEC` only — `O_NONBLOCK` is *not* requested at creation. -/
def init_pipe_flags : OFlags := { cloexec := true, nonblock := false }

/-- The process state visible to the installer: the per-signal
disposition table, the open-descriptor table, and the `PIPE` static
(initially `(-1, -1)`). -/
structure OSState where
  dispositions : Signal → SigAction
  fds : Int → Option FdState
  pipeVar : Int × Int

/-- Oracle fixing the outcome of every fallible syscall the installer
may issue.  `restoreRes` gives the outcome of the rollback `sigaction`
calls (those the source `.unwrap()`s), `closeRes` of the two `close`
calls whose results the source discards. -/
structure Env where
  atomicPipe2 : Bool
  pipeRes : Except Errno (Int × Int)
  setfdRes : Int → Except Errno Unit
  setflPipe2Res : Int → Except Errno Unit
  setflRes : Except Errno Unit
  swapRes : Signal → Except Errno Unit
  restoreRes : Signal → Except Errno Unit
  closeRes : Int → Except Errno Unit

/-- Observable events of an installer run, in program order. -/
inductive Event where
  | sigSwap (s : Signal)
  | sigRestore (s : Signal)
  | sigRestoreFail (s : Signal)
  | closeFd (fd : Int)
deriving DecidableEq, Repr

/-- How an installer run ends: normal success, an error return, or a
Rust panic from a failed `.unwrap()` on a rollback `sigaction`. -/
inductive InstallResult where
  | ok
  | err (e : Errno)
  | panicked (s : Signal)
deriving DecidableEq, Repr

def setDisp (st : OSState) (s : Signal) (a : SigAction) : OSState :=
  { st with dispositions := fun x => if x = s then a else st.dispositions x }

def addFd (st : OSState) (fd : Int) (f : FdState) : OSState :=
  { st with fds := fun i => if i = fd then some f else st.fds i }

def setCloexec (st : OSState) (fd : Int) : OSState :=
  { st with fds := fun i =>
      if i = fd then (st.fds i).map (fun f => { f with cloexec := true }) else st.fds i }

def setNonblockFlag (st : OSState) (fd : Int) : OSState :=
  { st with fds := fun i =>
      if i = fd then (st.fds i).map (fun f => { f with nonblock := true }) else st.fds i }

def removeFd (st : OSState) (fd : Int) : OSState :=
  { st with fds := fun i => if i = fd then none else st.fds i }

/-- The source's `pipe2` helper.  With `atomicPipe2` it is the
`rustix::pipe::pipe_with(flags)` variant (Linux and most Unixes);
otherwise it is the macOS/iOS/Haiku/AIX/QNX fallback: `pipe()` followed
by `fcntl_setfd(CLOEXEC)` on both ends if requested, then
`fcntl_setfl(NONBLOCK)` on both ends if requested, each chain
short-circuiting on the first error, and an error returned without
closing the just-created descriptors. -/
def pipe2_model (env : Env) (st : OSState) (flags : OFlags) :
    Except Errno (Int × Int) × OSState :=
  match env.pipeRes with
  | Except.error e => (Except.error e, st)
  | Except.ok (r, w) =>
    if env.atomicPipe2 then
      (Except.ok (r, w),
        addFd (addFd st r { cloexec := flags.cloexec, nonblock := flags.nonblock }) w
          { cloexec := flags.cloexec, nonblock := flags.nonblock })
    else
      let st0 := addFd (addFd st r { cloexec := false, nonblock := false }) w
        { cloexec := false, nonblock := false }
      let step1 : Except Errno Unit × OSState :=
        if flags.cloexec then
          match env.setfdRes r with
          | Except.error e => (Except.error e, st0)
          | Except.ok _ =>
            let st1 := setCloexec st0 r
            match env.setfdRes w with
            | Except.error e => (Except.error e, st1)
            | Except.ok _ => (Except.ok (), setCloexec st1 w)
        else (Except.ok (), st0)
      match step1 with
      | (Except.error e, st') => (Except.error e, st')
      | (Except.ok _, st') =>
        let step2 : Except Errno Unit × OSState :=
          if flags.nonblock then
            match env.setflPipe2Res r with
            | Except.error e => (Except.error e, st')
            | Except.ok _ =>
              let st2 := setNonblockFlag st' r
              match env.setflPipe2Res w with
              | Except.error e => (Except.error e, st2)
              | Except.ok _ => (Except.ok (), setNonblockFlag st2 w)
          else (Except.ok (), st')
        match step2 with
        | (Except.error e, st'') => (Except.error e, st'')
        | (Except.ok _, st'') => (Except.ok (r, w), st'')

/-- The installer's `close_pipe` closure: close `PIPE.1` then `PIPE.0`,
discarding both results (`let _ = rustix::io::close(..)`). -/
def close_pipe_model (env : Env) (st : OSState) : OSState × List Event :=
  let w := st.pipeVar.2
  let r := st.pipeVar.1
  let _ := env.closeRes w
  let _ := env.closeRes r
  (removeFd (removeFd st w) r, [Event.closeFd w, Event.closeFd r])

/-- Run a sequence of rollback `sigaction(sig, &old)` calls, each
`.unwrap()`ed by the source: on the first failing restore, stop with
that signal (the panic). -/
def runRestores (env : Env) (st : OSState) :
    List (Signal × SigAction) → OSState × List Event × Option Signal
  | [] => (st, [], none)
  | (s, a) :: rest =>
    match env.restoreRes s with
    | Except.error _ => (st, [Event.sigRestoreFail s], some s)
    | Except.ok _ =>
      let st' := setDisp st s a
      let res := runRestores env st' rest
      (res.1, Event.sigRestore s :: res.2.1, res.2.2)

/-- A failure return of the installer: run the listed rollback
restores (panicking at the first failed one, before any `close`), then
close both pipe descriptors and return the triggering error. -/
def failWith (env : Env) (st : OSState) (restores : List (Signal × SigAction)) (e : Errno)
    (evs : List Event) : InstallResult × OSState × List Event :=
  match runRestores env st restores with
  | (st', revs, some s) => (InstallResult.panicked s, st', evs ++ revs)
  | (st', revs, none) =>
    let c := close_pipe_model env st'
    (InstallResult.err e, c.1, evs ++ revs ++ c.2)

/-- `init_os_handler(overwrite)`, with the `termination` build feature
as a parameter.  Transcribes the source control flow: create the pipe
with `CLOEXEC` (propagating an error immediately), store it in `PIPE`,
set `O_NONBLOCK` on the write end, then for `Int` (and `Term`, `Hup`
when `termination` is set, in this order) swap in `new_action`,
failing with `EEXIST` when `overwrite` is false and the previous
handler was not `SigDfl`; every failure after pipe creation rolls back
the already-swapped dispositions — in the source's order, `Int` first —
then closes both pipe descriptors and returns the error. -/
def init_os_handler (termination overwrite : Bool) (env : Env) (st : OSState) :
    InstallResult × OSState × List Event :=
  match pipe2_model env st init_pipe_flags with
  | (Except.error e, st1) => (InstallResult.err e, st1, [])
  | (Except.ok (r, w), st1) =>
    let st2 : OSState := { st1 with pipeVar := (r, w) }
    match env.setflRes with
    | Except.error e =>
      let c := close_pipe_model env st2
      (InstallResult.err e, c.1, c.2)
    | Except.ok _ =>
      let st3 := setNonblockFlag st2 st2.pipeVar.2
      match env.swapRes Signal.INT with
      | Except.error e =>
        let c := close_pipe_model env st3
        (InstallResult.err e, c.1, c.2)
      | Except.ok _ =>
        let sigint_old := st3.dispositions Signal.INT
        let st4 := setDisp st3 Signal.INT new_action
        if !overwrite && decide (sigint_old.handler ≠ SigHandler.SigDfl) then
          failWith env st4 [(Signal.INT, sigint_old)] EEXIST [Event.sigSwap Signal.INT]
        else if termination then
          match env.swapRes Signal.TERM with
          | Except.error e =>
            failWith env st4 [(Signal.INT, sigint_old)] e [Event.sigSwap Signal.INT]
          | Except.ok _ =>
            let sigterm_old := st4.dispositions Signal.TERM
            let st5 := setDisp st4 Signal.TERM new_action
            if !overwrite && decide (sigterm_old.handler ≠ SigHandler.SigDfl) then
              failWith env st5 [(Signal.INT, sigint_old), (Signal.TERM, sigterm_old)] EEXIST
                [Event.sigSwap Signal.INT, Event.sigSwap Signal.TERM]
            else
              match env.swapRes Signal.HUP with
              | Except.error e =>
                failWith env st5 [(Signal.INT, sigint_old), (Signal.TERM, sigterm_old)] e
                  [Event.sigSwap Signal.INT, Event.sigSwap Signal.TERM]
              | Except.ok _ =>
                let sighup_old := st5.dispositions Signal.HUP
                let st6 := setDisp st5 Signal.HUP new_action
                if !overwrite && decide (sighup_old.handler ≠ SigHandler.SigDfl) then
                  failWith env st6
                    [(Signal.INT, sigint_old), (Signal.TERM, sigterm_old),
                      (Signal.HUP, sighup_old)] EEXIST
                    [Event.sigSwap Signal.INT, Event.sigSwap Signal.TERM,
                      Event.sigSwap Signal.HUP]
                else
                  (InstallResult.ok, st6,
                    [Event.sigSwap Signal.INT, Event.sigSwap Signal.TERM,
                      Event.sigSwap Signal.HUP])
        else
          (InstallResult.ok, st4, [Event.sigSwap Signal.INT])

/-- The ordered list of target signals for a build configuration. -/
def targetSignals : Bool → List Signal
  | false => [Signal.INT]
  | true => [Signal.INT, Signal.TERM, Signal.HUP]

/-- The restore events of a trace, in order. -/
def restoreOrder (evs : List Event) : List Signal :=
  evs.filterMap fun e => match e with | Event.sigRestore s => some s | _ => none

/-- The swap events of a trace, in order. -/
def swapOrder (evs : List Event) : List Signal :=
  evs.filterMap fun e => match e with | Event.sigSwap s => some s | _ => none

/-! ## Signal handler (`os_handler`) -/

/-- Operations a signal handler may perform; the source performs only a
single `write` of the buffer `[0u8]`. -/
inductive HandlerOp where
  | writeOp (fd : Int) (buf : List Nat)
deriving DecidableEq, Repr

/-- `os_handler(_sig)`: one attempted one-byte write to `PIPE.1`, its
result discarded (`let _ = rustix::io::write(fd, &[0u8])`), no other
operation, unit return. -/
def os_handler_model (pipeWrite : Int) (writeRes : Except Errno Nat) (sig : Int) :
    Unit × List HandlerOp :=
  let _ := writeRes
  let _ := sig
  ((), [HandlerOp.writeOp pipeWrite [0]])

/-! ## Basic state lemmas -/

@[simp] theorem setDisp_fds (st : OSState) (s : Signal) (a : SigAction) :
    (setDisp st s a).fds = st.fds := rfl

@[simp] theorem setDisp_pipeVar (st : OSState) (s : Signal) (a : SigAction) :
    (setDisp st s a).pipeVar = st.pipeVar := rfl

@[simp] theorem setDisp_disp_same (st : OSState) (s : Signal) (a : SigAction) :
    (setDisp st s a).dispositions s = a := by simp [setDisp]

theorem setDisp_disp_ne (st : OSState) (s s' : Signal) (a : SigAction) (h : s' ≠ s) :
    (setDisp st s a).dispositions s' = st.dispositions s' := by simp [setDisp, h]

@[simp] theorem addFd_dispositions (st : OSState) (fd : Int) (f : FdState) :
    (addFd st fd f).dispositions = st.dispositions := rfl

@[simp] theorem addFd_pipeVar (st : OSState) (fd : Int) (f : FdState) :
    (addFd st fd f).pipeVar = st.pipeVar := rfl

theorem addFd_fds (st : OSState) (fd : Int) (f : FdState) (i : Int) :
    (addFd st fd f).fds i = if i = fd then some f else st.fds i := rfl

@[simp] theorem setCloexec_dispositions (st : OSState) (fd : Int) :
    (setCloexec st fd).dispositions = st.dispositions := rfl

@[simp] theorem setCloexec_pipeVar (st : OSState) (fd : Int) :
    (setCloexec st fd).pipeVar = st.pipeVar := rfl

theorem setCloexec_fds (st : OSState) (fd i : Int) :
    (setCloexec st fd).fds i =
      if i = fd then (st.fds i).map (fun f => { f with cloexec := true }) else st.fds i := rfl

@[simp] theorem setNonblockFlag_dispositions (st : OSState) (fd : Int) :
    (setNonblockFlag st fd).dispositions = st.dispositions := rfl

@[simp] theorem setNonblockFlag_pipeVar (st : OSState) (fd : Int) :
    (setNonblockFlag st fd).pipeVar = st.pipeVar := rfl

theorem setNonblockFlag_fds (st : OSState) (fd i : Int) :
    (setNonblockFlag st fd).fds i =
      if i = fd then (st.fds i).map (fun f => { f with nonblock := true }) else st.fds i := rfl

@[simp] theorem removeFd_dispositions (st : OSState) (fd : Int) :
    (removeFd st fd).dispositions = st.dispositions := rfl

@[simp] theorem removeFd_pipeVar (st : OSState) (fd : Int) :
    (removeFd st fd).pipeVar = st.pipeVar := rfl

theorem removeFd_fds (st : OSState) (fd i : Int) :
    (removeFd st fd).fds i = if i = fd then none else st.fds i := rfl

@[simp] theorem withPipeVar_dispositions (st : OSState) (p : Int × Int) :
    (OSState.mk st.dispositions st.fds p).dispositions = st.dispositions := rfl

@[simp] theorem close_pipe_model_dispositions (env : Env) (st : OSState) :
    (close_pipe_model env st).1.dispositions = st.dispositions := rfl

@[simp] theorem close_pipe_model_pipeVar (env : Env) (st : OSState) :
    (close_pipe_model env st).1.pipeVar = st.pipeVar := rfl

@[simp] theorem close_pipe_model_events (env : Env) (st : OSState) :
    (close_pipe_model env st).2 =
      [Event.closeFd st.pipeVar.2, Event.closeFd st.pipeVar.1] := rfl

theorem close_pipe_model_fds (env : Env) (st : OSState) (i : Int) :
    (close_pipe_model env st).1.fds i =
      if i = st.pipeVar.1 then none else if i = st.pipeVar.2 then none else st.fds i := rfl

/-! ## pipe2 lemmas -/

theorem pipe2_model_dispositions (env : Env) (st : OSState) (flags : OFlags) :
    (pipe2_model env st flags).2.dispositions = st.dispositions := by
  unfold pipe2_model
  repeat' split
  all_goals simp [addFd, setCloexec, setNonblockFlag]

theorem pipe2_model_pipeVar (env : Env) (st : OSState) (flags : OFlags) :
    (pipe2_model env st flags).2.pipeVar = st.pipeVar := by
  unfold pipe2_model
  repeat' split
  all_goals simp [addFd, setCloexec, setNonblockFlag]

theorem pipe2_model_ok_pipeRes (env : Env) (st : OSState) (flags : OFlags) (r w : Int)
    (h : (pipe2_model env st flags).1 = Except.ok (r, w)) :
    env.pipeRes = Except.ok (r, w) := by
  unfold pipe2_model at h
  repeat' split at h
  all_goals simp_all

/-- After a successful `pipe2` call with the flags `init_os_handler`
passes (`CLOEXEC` only), both new descriptors carry `cloexec` and are
*not* non-blocking — in either platform variant. -/
theorem pipe2_model_ok_fds (env : Env) (st : OSState) (r w : Int)
    (h : (pipe2_model env st init_pipe_flags).1 = Except.ok (r, w)) :
    (pipe2_model env st init_pipe_flags).2.fds w =
        some { cloexec := true, nonblock := false } ∧
      (pipe2_model env st init_pipe_flags).2.fds r =
        some { cloexec := true, nonblock := false } := by
  by_cases hrw : r = w
  · subst hrw
    unfold pipe2_model at h ⊢
    repeat' split at h
    all_goals simp_all [init_pipe_flags, addFd, setCloexec, setNonblockFlag]
  · unfold pipe2_model at h ⊢
    repeat' split at h
    all_goals simp_all [init_pipe_flags, addFd, setCloexec, setNonblockFlag, hrw, Ne.symm hrw]

/-! ## Concrete environments and states -/

/-- Environment in which every syscall succeeds; the pipe created is
`(3, 4)`. -/
def goodEnv : Env :=
  { atomicPipe2 := true
    pipeRes := Except.ok (3, 4)
    setfdRes := fun _ => Except.ok ()
    setflPipe2Res := fun _ => Except.ok ()
    setflRes := Except.ok ()
    swapRes := fun _ => Except.ok ()
    restoreRes := fun _ => Except.ok ()
    closeRes := fun _ => Except.ok () }

/-- All-success environment for a second installation: the new pipe is
`(5, 6)`. -/
def goodEnv2 : Env := { goodEnv with pipeRes := Except.ok (5, 6) }

/-- Initial process state: every disposition default, no open
descriptors, `PIPE = (-1, -1)`. -/
def st0concrete : OSState :=
  { dispositions := fun _ => { handler := SigHandler.SigDfl, saRestart := false }
    fds := fun _ => none
    pipeVar := (-1, -1) }

/-- State in which `Term` already has a custom (foreign) handler. -/
def stTermCustom : OSState :=
  { st0concrete with
    dispositions := fun s =>
      match s with
      | Signal.TERM => { handler := SigHandler.Handler 7, saRestart := false }
      | _ => { handler := SigHandler.SigDfl, saRestart := false } }

/-- State in which `Int`'s disposition is already this mechanism's own
installed action. -/
def stOwnHandler : OSState :=
  { st0concrete with
    dispositions := fun s =>
      match s with
      | Signal.INT => new_action
      | _ => { handler := SigHandler.SigDfl, saRestart := false } }

/-- Environment in which the `fcntl_setfl(PIPE.1, O_NONBLOCK)` call in
the installer fails with `EINVAL` (22). -/
def envSetflFail : Env := { goodEnv with setflRes := Except.error 22 }

/-- Environment in which the rollback `sigaction` for `Int` fails. -/
def envRestoreFail : Env := { goodEnv with restoreRes := fun _ => Except.error 22 }

/-! ## C8: the signal handler -/

/-- C8: `os_handler` performs exactly one attempted write, of the single
byte `0`, to the pipe's write end, ignores the write's outcome, does
nothing else, returns unit, and behaves identically for any two
signal-number arguments. -/
theorem c8_os_handler_spec (pw : Int) (wr wr' : Except Errno Nat) (s s' : Int) :
    os_handler_model pw wr s = os_handler_model pw wr' s' ∧
    (os_handler_model pw wr s).2 = [HandlerOp.writeOp pw [0]] ∧
    ([(0 : Nat)].length = 1) ∧
    (os_handler_model pw wr s).1 = () := by
  exact ⟨rfl, rfl, rfl, rfl⟩

/-! ## Counterexamples -/

instance exceptDecEq {ε α : Type} [DecidableEq ε] [DecidableEq α] :
    DecidableEq (Except ε α) := fun a b =>
  match a, b with
  | Except.error e, Except.error e' =>
    if h : e = e' then isTrue (by rw [h]) else isFalse (by intro hc; cases hc; exact h rfl)
  | Except.error _, Except.ok _ => isFalse (by intro hc; cases hc)
  | Except.ok _, Except.error _ => isFalse (by intro hc; cases hc)
  | Except.ok a, Except.ok a' =>
    if h : a = a' then isTrue (by rw [h]) else isFalse (by intro hc; cases hc; exact h rfl)

/-- C2 counterexample: with the `termination` feature, `overwrite` false
and a pre-existing custom `Term` handler, installation fails after both
`Int` and `Term` were swapped, and the rollback restores `Int` *first*
and `Term` second — install order, not the claimed reverse-install
order (`[Term, Int]`). -/
theorem c2_counterexample :
    restoreOrder (init_os_handler true false goodEnv stTermCustom).2.2 =
        [Signal.INT, Signal.TERM] ∧
      ([Signal.INT, Signal.TERM] : List Signal) ≠ [Signal.TERM, Signal.INT] ∧
      (init_os_handler true false goodEnv stTermCustom).1 = InstallResult.err EEXIST := by
  decide

/-- C3 counterexample: when the non-blocking `fcntl` fails after the
pipe `(3, 4)` was created, the error is returned with both descriptors
closed but with the `PIPE` static still holding `(3, 4)` — it is never
reset to the `(-1, -1)` sentinel. -/
theorem c3_counterexample :
    (init_os_handler false false envSetflFail st0concrete).1 = InstallResult.err 22 ∧
      (init_os_handler false false envSetflFail st0concrete).2.1.fds 3 = none ∧
      (init_os_handler false false envSetflFail st0concrete).2.1.fds 4 = none ∧
      (init_os_handler false false envSetflFail st0concrete).2.1.pipeVar = (3, 4) ∧
      ((3, 4) : Int × Int) ≠ (-1, -1) := by
  decide

/-- C4 counterexample: when `Int`'s previous disposition is exactly this
mechanism's own installed action, `overwrite = false` still fails with
`EEXIST` — the source compares only against `SigDfl`, so its own
handler *is* treated as a conflict. -/
theorem c4_counterexample :
    stOwnHandler.dispositions Signal.INT = new_action ∧
      (init_os_handler false false goodEnv stOwnHandler).1 =
        InstallResult.err EEXIST := by
  decide

/-- C7 counterexample: `init_os_handler` requests only `CLOEXEC` at pipe
creation; immediately after the successful creation call the write end
(fd 4) is *not* non-blocking, so creation alone does not "produce a
pipe whose write end is non-blocking" via a two-flag atomic call. -/
theorem c7_counterexample :
    init_pipe_flags = { cloexec := true, nonblock := false } ∧
      (pipe2_model goodEnv st0concrete init_pipe_flags).1 = Except.ok (3, 4) ∧
      (pipe2_model goodEnv st0concrete init_pipe_flags).2.fds 4 =
        some { cloexec := true, nonblock := false } := by
  decide

/-! ## General installer lemmas -/

@[simp] theorem mk_dispositions (d : Signal → SigAction) (f : Int → Option FdState)
    (p : Int × Int) : (OSState.mk d f p).dispositions = d := rfl

@[simp] theorem mk_fds (d : Signal → SigAction) (f : Int → Option FdState)
    (p : Int × Int) : (OSState.mk d f p).fds = f := rfl

@[simp] theorem mk_pipeVar (d : Signal → SigAction) (f : Int → Option FdState)
    (p : Int × Int) : (OSState.mk d f p).pipeVar = p := rfl

theorem close_pipe_model_fds_pt (env : Env) (stX : OSState) (i : Int) :
    (close_pipe_model env stX).1.fds i =
      if i = stX.pipeVar.1 then none
      else if i = stX.pipeVar.2 then none else stX.fds i := rfl

/-- C6: if pipe creation fails, the installer returns that very error
at once — an empty event trace (no `sigaction`, no `close`), every
signal disposition untouched, and the `PIPE` static untouched. -/
theorem c6_pipe_failure_frame (t o : Bool) (env : Env) (st : OSState) (e : Errno)
    (h : (pipe2_model env st init_pipe_flags).1 = Except.error e) :
    (init_os_handler t o env st).1 = InstallResult.err e ∧
    (init_os_handler t o env st).2.2 = [] ∧
    (∀ s, (init_os_handler t o env st).2.1.dispositions s = st.dispositions s) ∧
    (init_os_handler t o env st).2.1.pipeVar = st.pipeVar := by
  have hd := pipe2_model_dispositions env st init_pipe_flags
  have hv := pipe2_model_pipeVar env st init_pipe_flags
  unfold init_os_handler
  rcases hq : pipe2_model env st init_pipe_flags with ⟨res, st1⟩
  rw [hq] at h hd hv
  simp only at h hd hv
  subst h
  exact ⟨rfl, rfl, fun s => congrFun hd s, hv⟩

/-- Witness for `c6_pipe_failure_frame`: pipe creation fails with
`EMFILE` (24). -/
theorem c6_pipe_failure_frame_witness :
    (init_os_handler false false { goodEnv with pipeRes := Except.error 24 }
        st0concrete).1 = InstallResult.err 24 ∧
    (init_os_handler false false { goodEnv with pipeRes := Except.error 24 }
        st0concrete).2.2 = [] ∧
    (∀ s, (init_os_handler false false { goodEnv with pipeRes := Except.error 24 }
        st0concrete).2.1.dispositions s = st0concrete.dispositions s) ∧
    (init_os_handler false false { goodEnv with pipeRes := Except.error 24 }
        st0concrete).2.1.pipeVar = st0concrete.pipeVar :=
  c6_pipe_failure_frame false false { goodEnv with pipeRes := Except.error 24 }
    st0concrete 24 (by decide)

/-- C9: the installer's behaviour — result, final state and trace — is
completely independent of the outcomes of the two `close` calls, whose
errors the source discards; and the error returned on the
non-blocking-`fcntl` failure path and on the `sigaction(Int)` failure
path is exactly the triggering error. -/
theorem c9_close_errors_discarded (t o : Bool) (env : Env) (st : OSState) :
    (∀ cr, init_os_handler t o { env with closeRes := cr } st =
      init_os_handler t o env st) ∧
    (∀ e r w, (pipe2_model env st init_pipe_flags).1 = Except.ok (r, w) →
      env.setflRes = Except.error e →
      (init_os_handler t o env st).1 = InstallResult.err e) ∧
    (∀ e r w, (pipe2_model env st init_pipe_flags).1 = Except.ok (r, w) →
      env.setflRes = Except.ok () →
      env.swapRes Signal.INT = Except.error e →
      (init_os_handler t o env st).1 = InstallResult.err e) := by
  refine ⟨fun cr => rfl, ?_, ?_⟩
  · intro e r w hp hsf
    unfold init_os_handler
    rcases hq : pipe2_model env st init_pipe_flags with ⟨res, st1⟩
    rw [hq] at hp
    simp only at hp
    subst hp
    rw [hsf]
  · intro e r w hp hsf hsi
    unfold init_os_handler
    rcases hq : pipe2_model env st init_pipe_flags with ⟨res, st1⟩
    rw [hq] at hp
    simp only at hp
    subst hp
    rw [hsf, hsi]

/-- Witness for `c9_close_errors_discarded`: in the environment whose
non-blocking `fcntl` fails with 22, the run is independent of whatever
the `close` outcomes are, and the returned error is exactly 22. -/
theorem c9_close_errors_discarded_witness :
    (∀ cr, init_os_handler false false { envSetflFail with closeRes := cr } st0concrete =
      init_os_handler false false envSetflFail st0concrete) ∧
    (init_os_handler false false envSetflFail st0concrete).1 = InstallResult.err 22 :=
  ⟨(c9_close_errors_discarded false false envSetflFail st0concrete).1,
    (c9_close_errors_discarded false false envSetflFail st0concrete).2.1 22 3 4
      (by decide) (by decide)⟩

/-- C3 (amended): on every installation failure after the pipe was
fully created, both created descriptors are closed, but the `PIPE`
static keeps the stale descriptor pair `(r, w)` — it is not reset to a
sentinel. -/
theorem c3_amended_close_no_reset (t o : Bool) (env : Env) (st : OSState)
    (r w : Int) (e : Errno) (res : InstallResult) (stf : OSState) (tr : List Event)
    (hp : (pipe2_model env st init_pipe_flags).1 = Except.ok (r, w))
    (hinit : init_os_handler t o env st = (res, stf, tr))
    (hres : res = InstallResult.err e) :
    stf.fds r = none ∧ stf.fds w = none ∧ stf.pipeVar = (r, w) := by
  subst hres
  unfold init_os_handler at hinit
  rcases hq : pipe2_model env st init_pipe_flags with ⟨pres, st1⟩
  rw [hq] at hinit hp
  simp only at hp
  subst hp
  rcases hri : env.restoreRes Signal.INT with eI | uI <;>
    rcases hrt : env.restoreRes Signal.TERM with eT | uT <;>
      rcases hrh : env.restoreRes Signal.HUP with eH | uH <;>
        simp only [failWith, runRestores, hri, hrt, hrh] at hinit <;>
          repeat' split at hinit
  all_goals
    simp only [Prod.mk.injEq] at hinit
  all_goals
    obtain ⟨h1, h2, h3⟩ := hinit
  all_goals
    subst h2
  all_goals
    first
    | exact InstallResult.noConfusion h1
    | (refine ⟨?_, ?_, by simp⟩ <;>
        by_cases hwr : w = r <;>
          simp [close_pipe_model_fds_pt, hwr])

/-- C2 (amended): whenever installation fails with an error after at
least one disposition swap, the trace is exactly the swaps, followed by
one restore per swapped signal *in the same (install) order — Interrupt
first, the most recently installed signal last* — followed by the two
descriptor closes; and every disposition is back to its pre-install
value. -/
theorem c2_amended_rollback_order (t o : Bool) (env : Env) (st : OSState) (e : Errno)
    (res : InstallResult) (stf : OSState) (tr : List Event)
    (hinit : init_os_handler t o env st = (res, stf, tr))
    (hres : res = InstallResult.err e)
    (hsw : swapOrder tr ≠ []) :
    restoreOrder tr = swapOrder tr ∧
    tr = (swapOrder tr).map Event.sigSwap ++ (swapOrder tr).map Event.sigRestore ++
      [Event.closeFd stf.pipeVar.2, Event.closeFd stf.pipeVar.1] ∧
    (∀ s, stf.dispositions s = st.dispositions s) := by
  subst hres
  have hd := pipe2_model_dispositions env st init_pipe_flags
  unfold init_os_handler at hinit
  rcases hq : pipe2_model env st init_pipe_flags with ⟨pres, st1⟩
  rw [hq] at hinit hd
  simp only at hd
  rcases pres with e0 | ⟨r, w⟩
  · simp only [Prod.mk.injEq] at hinit
    obtain ⟨h1, h2, h3⟩ := hinit
    subst h3
    exact absurd rfl hsw
  · rcases hri : env.restoreRes Signal.INT with eI | uI <;>
      rcases hrt : env.restoreRes Signal.TERM with eT | uT <;>
        rcases hrh : env.restoreRes Signal.HUP with eH | uH <;>
          simp only [failWith, runRestores, hri, hrt, hrh] at hinit <;>
            repeat' split at hinit
    all_goals simp only [Prod.mk.injEq] at hinit
    all_goals obtain ⟨h1, h2, h3⟩ := hinit
    all_goals subst h2
    all_goals subst h3
    all_goals first
      | exact InstallResult.noConfusion h1
      | exact absurd rfl hsw
      | (refine ⟨by simp [restoreOrder, swapOrder], by simp [swapOrder], ?_⟩
         intro s
         cases s <;> simp [setDisp, hd])

/-- C10: every rollback `sigaction` is `.unwrap()`ed.  An error return
of the installer never follows a failed restore (so no returned error
reflects a rollback failure), and a panic result occurs exactly at a
restore whose `sigaction` failed, with the failure in the trace. -/
theorem c10_rollback_unwrap (t o : Bool) (env : Env) (st : OSState)
    (res : InstallResult) (stf : OSState) (tr : List Event)
    (hinit : init_os_handler t o env st = (res, stf, tr)) :
    (∀ e, res = InstallResult.err e → ∀ s, Event.sigRestoreFail s ∉ tr) ∧
    (∀ s, res = InstallResult.panicked s →
      (∃ er, env.restoreRes s = Except.error er) ∧ Event.sigRestoreFail s ∈ tr) := by
  unfold init_os_handler at hinit
  rcases hq : pipe2_model env st init_pipe_flags with ⟨pres, st1⟩
  rw [hq] at hinit
  rcases pres with e0 | ⟨r, w⟩ <;>
    rcases hri : env.restoreRes Signal.INT with eI | uI <;>
      rcases hrt : env.restoreRes Signal.TERM with eT | uT <;>
        rcases hrh : env.restoreRes Signal.HUP with eH | uH <;>
          simp only [failWith, runRestores, hri, hrt, hrh] at hinit <;>
            repeat' split at hinit
  all_goals simp only [Prod.mk.injEq] at hinit
  all_goals obtain ⟨h1, h2, h3⟩ := hinit
  all_goals subst h2
  all_goals subst h3
  all_goals subst h1
  all_goals constructor
  all_goals intro x hx
  all_goals first
    | exact InstallResult.noConfusion hx
    | (injection hx with hx4
       subst hx4
       constructor
       · first
         | exact ⟨_, hri⟩
         | exact ⟨_, hrt⟩
         | exact ⟨_, hrh⟩
       · simp)
    | (intro s
       simp)

/-- C7 (amended): pipe creation as invoked requests only close-on-exec
(`init_pipe_flags` has `nonblock = false`); the write end becomes
non-blocking through the installer's explicit follow-up `fcntl`; after
a successful install the write end is non-blocking and both ends are
close-on-exec, with `PIPE = (r, w)`. -/
theorem c7_amended_pipe_flags (t o : Bool) (env : Env) (st : OSState)
    (res : InstallResult) (stf : OSState) (tr : List Event) (r w : Int)
    (hp : (pipe2_model env st init_pipe_flags).1 = Except.ok (r, w))
    (hinit : init_os_handler t o env st = (res, stf, tr))
    (hres : res = InstallResult.ok) :
    init_pipe_flags.nonblock = false ∧
    init_pipe_flags.cloexec = true ∧
    stf.pipeVar = (r, w) ∧
    (∃ fw, stf.fds w = some fw ∧ fw.cloexec = true ∧ fw.nonblock = true) ∧
    (∃ fr, stf.fds r = some fr ∧ fr.cloexec = true) := by
  subst hres
  have hfds := pipe2_model_ok_fds env st r w hp
  unfold init_os_handler at hinit
  rcases hq : pipe2_model env st init_pipe_flags with ⟨pres, st1⟩
  rw [hq] at hinit hp hfds
  simp only at hp hfds
  subst hp
  simp only [failWith, runRestores] at hinit
  repeat' split at hinit
  all_goals simp only [Prod.mk.injEq] at hinit
  all_goals obtain ⟨h1, h2, h3⟩ := hinit
  all_goals subst h2
  all_goals first
    | exact InstallResult.noConfusion h1
    | (by_cases hrw : r = w
       · subst hrw
         refine ⟨rfl, rfl, by simp, ⟨{ cloexec := true, nonblock := true }, ?_, rfl, rfl⟩,
           ⟨{ cloexec := true, nonblock := true }, ?_, rfl⟩⟩ <;>
           simp [setNonblockFlag_fds, hfds.1]
       · refine ⟨rfl, rfl, by simp, ⟨{ cloexec := true, nonblock := true }, ?_, rfl, rfl⟩,
           ⟨{ cloexec := true, nonblock := false }, ?_, rfl⟩⟩
         · simp [setNonblockFlag_fds, hfds.1]
         · simp [setNonblockFlag_fds, hfds.2, hrw])

/-- C4 (amended): with `overwrite = false` and all syscalls succeeding,
installation fails with the `EEXIST` conflict exactly when some target
signal's previous handler is not `SigDfl` — the comparison is against
the default only, so a previous disposition equal to this mechanism's
own handler *is* also a conflict. -/
theorem c4_amended_conflict_iff (t : Bool) (st : OSState) :
    (init_os_handler t false goodEnv st).1 = InstallResult.err EEXIST ↔
      ∃ s ∈ targetSignals t, (st.dispositions s).handler ≠ SigHandler.SigDfl := by
  cases t <;>
    by_cases hI : (st.dispositions Signal.INT).handler = SigHandler.SigDfl <;>
      by_cases hT : (st.dispositions Signal.TERM).handler = SigHandler.SigDfl <;>
        by_cases hH : (st.dispositions Signal.HUP).handler = SigHandler.SigDfl <;>
          simp [init_os_handler, pipe2_model, goodEnv, init_pipe_flags, failWith,
            runRestores, targetSignals, setDisp, hI, hT, hH]

/-- C5: after a first successful installation under an all-success
environment, a second installation with `overwrite = false` fails with
the `EEXIST` conflict, and afterwards every target signal's active
disposition is the handler action the first installation installed. -/
theorem c5_second_install_conflict (t o1 : Bool) (st0 stf : OSState) (tr : List Event)
    (h1 : init_os_handler t o1 goodEnv st0 = (InstallResult.ok, stf, tr)) :
    (init_os_handler t false goodEnv2 stf).1 = InstallResult.err EEXIST ∧
    ∀ s ∈ targetSignals t,
      (init_os_handler t false goodEnv2 stf).2.1.dispositions s = new_action := by
  cases t <;>
    unfold init_os_handler at h1 <;>
      simp [pipe2_model, goodEnv, init_pipe_flags, failWith, runRestores] at h1 <;>
        repeat' split at h1
  all_goals simp only [Prod.mk.injEq] at h1
  all_goals obtain ⟨ha, hb, hc⟩ := h1
  all_goals first
    | exact InstallResult.noConfusion ha
    | (subst hb
       refine ⟨?_, ?_⟩ <;>
         simp [init_os_handler, pipe2_model, goodEnv2, goodEnv, init_pipe_flags,
           failWith, runRestores, targetSignals, setDisp, new_action, os_handler_fn])

/-! ## Witnesses for the general installer theorems -/

/-- Witness for `c2_amended_rollback_order`: the `Term`-conflict run. -/
theorem c2_amended_rollback_order_witness :
    restoreOrder (init_os_handler true false goodEnv stTermCustom).2.2 =
        swapOrder (init_os_handler true false goodEnv stTermCustom).2.2 ∧
    (init_os_handler true false goodEnv stTermCustom).2.2 =
      (swapOrder (init_os_handler true false goodEnv stTermCustom).2.2).map
          Event.sigSwap ++
        (swapOrder (init_os_handler true false goodEnv stTermCustom).2.2).map
          Event.sigRestore ++
        [Event.closeFd (init_os_handler true false goodEnv stTermCustom).2.1.pipeVar.2,
         Event.closeFd (init_os_handler true false goodEnv stTermCustom).2.1.pipeVar.1] ∧
    (∀ s, (init_os_handler true false goodEnv stTermCustom).2.1.dispositions s =
      stTermCustom.dispositions s) :=
  c2_amended_rollback_order true false goodEnv stTermCustom EEXIST
    (init_os_handler true false goodEnv stTermCustom).1
    (init_os_handler true false goodEnv stTermCustom).2.1
    (init_os_handler true false goodEnv stTermCustom).2.2
    rfl (by decide) (by decide)

/-- Witness for `c3_amended_close_no_reset`: the failing-`fcntl` run. -/
theorem c3_amended_close_no_reset_witness :
    (init_os_handler false false envSetflFail st0concrete).2.1.fds 3 = none ∧
    (init_os_handler false false envSetflFail st0concrete).2.1.fds 4 = none ∧
    (init_os_handler false false envSetflFail st0concrete).2.1.pipeVar = (3, 4) :=
  c3_amended_close_no_reset false false envSetflFail st0concrete 3 4 22
    (init_os_handler false false envSetflFail st0concrete).1
    (init_os_handler false false envSetflFail st0concrete).2.1
    (init_os_handler false false envSetflFail st0concrete).2.2
    (by decide) rfl (by decide)

/-- Witness for `c5_second_install_conflict`: first install on the
all-default state with the `termination` feature. -/
theorem c5_second_install_conflict_witness :
    (init_os_handler true false goodEnv2
        (init_os_handler true false goodEnv st0concrete).2.1).1 =
      InstallResult.err EEXIST ∧
    ∀ s ∈ targetSignals true,
      (init_os_handler true false goodEnv2
          (init_os_handler true false goodEnv st0concrete).2.1).2.1.dispositions s =
        new_action :=
  c5_second_install_conflict true false st0concrete
    (init_os_handler true false goodEnv st0concrete).2.1
    (init_os_handler true false goodEnv st0concrete).2.2
    rfl

/-- Witness for `c7_amended_pipe_flags`: the all-success run. -/
theorem c7_amended_pipe_flags_witness :
    init_pipe_flags.nonblock = false ∧
    init_pipe_flags.cloexec = true ∧
    (init_os_handler true true goodEnv st0concrete).2.1.pipeVar = (3, 4) ∧
    (∃ fw, (init_os_handler true true goodEnv st0concrete).2.1.fds 4 = some fw ∧
      fw.cloexec = true ∧ fw.nonblock = true) ∧
    (∃ fr, (init_os_handler true true goodEnv st0concrete).2.1.fds 3 = some fr ∧
      fr.cloexec = true) :=
  c7_amended_pipe_flags true true goodEnv st0concrete
    (init_os_handler true true goodEnv st0concrete).1
    (init_os_handler true true goodEnv st0concrete).2.1
    (init_os_handler true true goodEnv st0concrete).2.2
    3 4 (by decide) rfl (by decide)

/-- Witness for `c10_rollback_unwrap`: a conflict rollback whose
restoring `sigaction` fails, producing the panic. -/
theorem c10_rollback_unwrap_witness :
    (∃ er, envRestoreFail.restoreRes Signal.INT = Except.error er) ∧
    Event.sigRestoreFail Signal.INT ∈
      (init_os_handler false false envRestoreFail stOwnHandler).2.2 :=
  (c10_rollback_unwrap false false envRestoreFail stOwnHandler
    (init_os_handler false false envRestoreFail stOwnHandler).1
    (init_os_handler false false envRestoreFail stOwnHandler).2.1
    (init_os_handler false false envRestoreFail stOwnHandler).2.2
    rfl).2 Signal.INT (by decide)

end Ctrlc
